import Mathlib

/-!
Shallow embedding of the `AgentPaymentVault` Solidity contract
(contracts/AgentPaymentVault.sol) and proofs of the specified properties.

Addresses are modelled as natural numbers, with `0` playing the role of the
null address.  All `uint256` quantities are modelled as `Nat`; Solidity 0.8
checked arithmetic reverts instead of wrapping, subtractions in the source
are guarded by explicit balance checks, and the quantities reachable in the
contract stay far below `2^256`, so no modular reduction is needed here.
The external ERC-20 `transfer`/`transferFrom` capability is modelled by
boolean success flags passed to each operation; a `require` failure in the
source reverts the whole call, which the embedding renders by returning an
`Except.error` and keeping the pre-call state.
-/

set_option maxHeartbeats 1000000

namespace AgentVault

/-- Seconds in one day (`1 days` in Solidity). -/
def secondsPerDay : Nat := 86400

/-- Basis-points divisor (`BPS_DIVISOR = 10000`). -/
def BPS_DIVISOR : Nat := 10000

/-- Maximum platform fee in basis points (`MAX_PLATFORM_FEE_BPS = 1000`). -/
def MAX_PLATFORM_FEE_BPS : Nat := 1000

/-- Day index of a timestamp: `block.timestamp / 1 days`. -/
def dayIndex (t : Nat) : Nat := t / secondsPerDay

/-- The `FundAccount` struct: balance, limits, rolling daily spend and the
per-fund `mapping(address => bool) authorizedBots`. -/
structure FundAccount where
  balance : Nat
  dailySpendingLimit : Nat
  perTransactionLimit : Nat
  todaySpent : Nat
  lastResetDay : Nat
  authorizedBots : Nat → Bool

/-- The `Purchase` struct recorded in the ledger. -/
structure Purchase where
  fund : Nat
  bot : Nat
  recipient : Nat
  amount : Nat
  fee : Nat
  timestamp : Nat
  metadata : String
deriving DecidableEq

/-- The tuple returned by the `getFundAccount` view function. -/
structure FundAccountView where
  balance : Nat
  dailySpendingLimit : Nat
  perTransactionLimit : Nat
  todaySpent : Nat
  lastResetDay : Nat
deriving DecidableEq

/-- Revert reasons of the contract, one constructor per distinct
`require` message reachable from the modelled entry points. -/
inductive VaultError where
  | invalidAmount
  | transferFailed
  | insufficientBalance
  | invalidBotAddress
  | botAlreadyAuthorized
  | botNotAuthorized
  | perTxLimitExceedsDaily
  | invalidRecipient
  | exceedsPerTransactionLimit
  | exceedsDailyLimit
  | transferToRecipientFailed
  | feeTransferFailed
  | invalidPurchaseId
deriving DecidableEq

/-- Contract storage: fee rate, treasury, the `fundAccounts` mapping, the
global `purchases` array and the `fundPurchaseIndices` mapping. -/
structure VaultState where
  platformFeeBps : Nat
  treasury : Nat
  fundAccounts : Nat → FundAccount
  purchases : List Purchase
  fundPurchaseIndices : Nat → List Nat

/-- Default value of a `FundAccount` storage slot (all fields zero, no bot
authorized), i.e. the account of a fund never touched by any operation. -/
def emptyAccount : FundAccount :=
  { balance := 0, dailySpendingLimit := 0, perTransactionLimit := 0,
    todaySpent := 0, lastResetDay := 0, authorizedBots := fun _ => false }

/-- State established by the constructor: `platformFeeBps = 200`, the given
treasury, and empty mappings/arrays. -/
def initialState (treasuryAddr : Nat) : VaultState :=
  { platformFeeBps := 200, treasury := treasuryAddr,
    fundAccounts := fun _ => emptyAccount,
    purchases := [],
    fundPurchaseIndices := fun _ => [] }

/-- Point update of the `fundAccounts` mapping. -/
def setAccount (s : VaultState) (f : Nat) (a : FundAccount) : VaultState :=
  { s with fundAccounts := fun x => if x = f then a else s.fundAccounts x }

/-- Whether an `Except` result is a success. -/
def exceptOk {ε α : Type} : Except ε α → Bool
  | .ok _ => true
  | .error _ => false

/-- The revert reason of a failed result, `none` on success. -/
def errOf {ε α : Type} : Except ε α → Option ε
  | .ok _ => none
  | .error e => some e

/-- The value of a successful result, `none` on failure. -/
def okOf {ε α : Type} : Except ε α → Option α
  | .ok a => some a
  | .error _ => none

/-- The fee computation inlined in `purchaseOnBehalf`:
`(amount * platformFeeBps) / BPS_DIVISOR`. -/
def computeFee (amount bps : Nat) : Nat := amount * bps / BPS_DIVISOR

/-- `_resetDailyLimitIfNeeded`: with `currentDay = block.timestamp / 1 days`,
zero `todaySpent` and set `lastResetDay := currentDay` when `currentDay`
has moved past `lastResetDay`. -/
def resetDailyLimitIfNeeded (a : FundAccount) (now : Nat) : FundAccount :=
  if dayIndex now > a.lastResetDay then
    { a with todaySpent := 0, lastResetDay := dayIndex now }
  else a

/-- `deposit(amount)` called by `fund`; `transferOk` is the result of the
external `usdc.transferFrom(fund, vault, amount)` call. -/
def deposit (s : VaultState) (fund amount : Nat) (transferOk : Bool) :
    Except VaultError VaultState :=
  if amount = 0 then .error .invalidAmount
  else if transferOk = false then .error .transferFailed
  else
    let a := s.fundAccounts fund
    .ok (setAccount s fund { a with balance := a.balance + amount })

/-- `withdraw(amount)` called by `fund`; `transferOk` is the result of the
external `usdc.transfer(fund, amount)` call (a failure reverts the already
performed balance decrement). -/
def withdraw (s : VaultState) (fund amount : Nat) (transferOk : Bool) :
    Except VaultError VaultState :=
  let a := s.fundAccounts fund
  if amount = 0 then .error .invalidAmount
  else if a.balance < amount then .error .insufficientBalance
  else if transferOk = false then .error .transferFailed
  else .ok (setAccount s fund { a with balance := a.balance - amount })

/-- `authorizeBot(bot)` called by `fund`. -/
def authorizeBot (s : VaultState) (fund bot : Nat) :
    Except VaultError VaultState :=
  if bot = 0 then .error .invalidBotAddress
  else
    let a := s.fundAccounts fund
    if a.authorizedBots bot then .error .botAlreadyAuthorized
    else .ok (setAccount s fund
      { a with authorizedBots := fun x => if x = bot then true else a.authorizedBots x })

/-- `revokeBot(bot)` called by `fund`. -/
def revokeBot (s : VaultState) (fund bot : Nat) :
    Except VaultError VaultState :=
  let a := s.fundAccounts fund
  if a.authorizedBots bot = false then .error .botNotAuthorized
  else .ok (setAccount s fund
    { a with authorizedBots := fun x => if x = bot then false else a.authorizedBots x })

/-- `setLimits(dailyLimit, perTransactionLimit)` called by `fund`. -/
def setLimits (s : VaultState) (fund dailyLimit perTransactionLimit : Nat) :
    Except VaultError VaultState :=
  if perTransactionLimit ≤ dailyLimit ∨ dailyLimit = 0 then
    let a := s.fundAccounts fund
    .ok (setAccount s fund
      { a with dailySpendingLimit := dailyLimit, perTransactionLimit := perTransactionLimit })
  else .error .perTxLimitExceedsDaily

/-- `purchaseOnBehalf(fund, recipient, amount, metadata)` called by `bot`
at time `now`; `toRecipientOk` and `toTreasuryOk` are the results of the two
external `usdc.transfer` calls.  A failed `require` reverts every storage
write of the call (including the daily reset), which the embedding renders
by returning an error and no state. -/
def purchaseOnBehalf (s : VaultState) (fund bot recipient amount : Nat)
    (metadata : String) (now : Nat) (toRecipientOk toTreasuryOk : Bool) :
    Except VaultError (VaultState × Nat) :=
  if recipient = 0 then .error .invalidRecipient
  else if amount = 0 then .error .invalidAmount
  else if (s.fundAccounts fund).authorizedBots bot = false then .error .botNotAuthorized
  else
    let account := resetDailyLimitIfNeeded (s.fundAccounts fund) now
    if account.perTransactionLimit > 0 ∧ amount > account.perTransactionLimit then
      .error .exceedsPerTransactionLimit
    else if account.dailySpendingLimit > 0 ∧
        account.todaySpent + amount > account.dailySpendingLimit then
      .error .exceedsDailyLimit
    else
      let fee := computeFee amount s.platformFeeBps
      let totalAmount := amount + fee
      if account.balance < totalAmount then .error .insufficientBalance
      else if toRecipientOk = false then .error .transferToRecipientFailed
      else if toTreasuryOk = false then .error .feeTransferFailed
      else
        let purchaseId := s.purchases.length
        let newAccount :=
          { account with
              balance := account.balance - totalAmount,
              todaySpent := account.todaySpent + amount }
        .ok ({ s with
                fundAccounts := fun x => if x = fund then newAccount else s.fundAccounts x,
                purchases := s.purchases ++
                  [{ fund := fund, bot := bot, recipient := recipient,
                     amount := amount, fee := fee, timestamp := now,
                     metadata := metadata }],
                fundPurchaseIndices := fun x =>
                  if x = fund then s.fundPurchaseIndices fund ++ [purchaseId]
                  else s.fundPurchaseIndices x },
              purchaseId)

/-- View `getFundAccount(fund)`. -/
def getFundAccount (s : VaultState) (fund : Nat) : FundAccountView :=
  let a := s.fundAccounts fund
  { balance := a.balance, dailySpendingLimit := a.dailySpendingLimit,
    perTransactionLimit := a.perTransactionLimit, todaySpent := a.todaySpent,
    lastResetDay := a.lastResetDay }

/-- View `isBotAuthorized(fund, bot)`. -/
def isBotAuthorized (s : VaultState) (fund bot : Nat) : Bool :=
  (s.fundAccounts fund).authorizedBots bot

/-- View `getFundPurchases(fund)`. -/
def getFundPurchases (s : VaultState) (fund : Nat) : List Nat :=
  s.fundPurchaseIndices fund

/-- View `getTotalPurchases()`. -/
def getTotalPurchases (s : VaultState) : Nat := s.purchases.length

/-- View `getPurchase(purchaseId)` with its range `require`. -/
def getPurchase (s : VaultState) (purchaseId : Nat) : Except VaultError Purchase :=
  if h : purchaseId < s.purchases.length then .ok (s.purchases.get ⟨purchaseId, h⟩)
  else .error .invalidPurchaseId

/-- State observed after a `purchaseOnBehalf` call: the new state on
success, the unchanged pre-call state on revert. -/
def purchaseRun (s : VaultState) (fund bot recipient amount : Nat)
    (metadata : String) (now : Nat) (toRecipientOk toTreasuryOk : Bool) : VaultState :=
  match purchaseOnBehalf s fund bot recipient amount metadata now toRecipientOk toTreasuryOk with
  | .ok (s', _) => s'
  | .error _ => s

/-- One externally-visible mutating operation, with the outcome flags of
any external transfers it performs. -/
inductive Op where
  | deposit (amount : Nat) (transferOk : Bool)
  | withdraw (amount : Nat) (transferOk : Bool)
  | authorizeBot (bot : Nat)
  | revokeBot (bot : Nat)
  | setLimits (dailyLimit perTransactionLimit : Nat)
  | purchase (bot recipient amount : Nat) (metadata : String) (now : Nat)
      (toRecipientOk toTreasuryOk : Bool)
deriving DecidableEq

/-- Run one operation against fund `f` (the `msg.sender` for
`deposit`/`withdraw`/`authorizeBot`/`revokeBot`/`setLimits`, the `fund`
argument for `purchaseOnBehalf`), returning the revert reason on failure. -/
def stepOp (s : VaultState) (f : Nat) : Op → Except VaultError VaultState
  | .deposit amount tok => deposit s f amount tok
  | .withdraw amount tok => withdraw s f amount tok
  | .authorizeBot b => authorizeBot s f b
  | .revokeBot b => revokeBot s f b
  | .setLimits d p => setLimits s f d p
  | .purchase b r a md now t1 t2 =>
      (purchaseOnBehalf s f b r a md now t1 t2).map Prod.fst

/-- State after one operation: new state on success, unchanged state on
revert. -/
def runOp (s : VaultState) (f : Nat) (op : Op) : VaultState :=
  match stepOp s f op with
  | .ok s' => s'
  | .error _ => s

/-- State after a sequence of operations, each tagged with the fund it
targets. -/
def runOps (s : VaultState) : List (Nat × Op) → VaultState
  | [] => s
  | (f, op) :: rest => runOps (runOp s f op) rest

/-! ## Basic lemmas about the daily reset -/

@[simp] theorem reset_balance (a : FundAccount) (now : Nat) :
    (resetDailyLimitIfNeeded a now).balance = a.balance := by
  unfold resetDailyLimitIfNeeded; split <;> rfl

@[simp] theorem reset_perTransactionLimit (a : FundAccount) (now : Nat) :
    (resetDailyLimitIfNeeded a now).perTransactionLimit = a.perTransactionLimit := by
  unfold resetDailyLimitIfNeeded; split <;> rfl

@[simp] theorem reset_dailySpendingLimit (a : FundAccount) (now : Nat) :
    (resetDailyLimitIfNeeded a now).dailySpendingLimit = a.dailySpendingLimit := by
  unfold resetDailyLimitIfNeeded; split <;> rfl

@[simp] theorem reset_authorizedBots (a : FundAccount) (now : Nat) :
    (resetDailyLimitIfNeeded a now).authorizedBots = a.authorizedBots := by
  unfold resetDailyLimitIfNeeded; split <;> rfl

theorem reset_of_gt {a : FundAccount} {now : Nat} (h : dayIndex now > a.lastResetDay) :
    resetDailyLimitIfNeeded a now =
      { a with todaySpent := 0, lastResetDay := dayIndex now } := by
  unfold resetDailyLimitIfNeeded
  rw [if_pos h]

theorem reset_of_le {a : FundAccount} {now : Nat} (h : dayIndex now ≤ a.lastResetDay) :
    resetDailyLimitIfNeeded a now = a := by
  unfold resetDailyLimitIfNeeded
  rw [if_neg (by omega)]

/-! ## Characterization of `purchaseOnBehalf` -/

/-- The state produced by a successful `purchaseOnBehalf` call, in terms of
the post-reset account `a1` and the fee. -/
def purchaseOkState (s : VaultState) (f b r amount fee : Nat) (md : String)
    (now : Nat) (a1 : FundAccount) : VaultState :=
  { platformFeeBps := s.platformFeeBps, treasury := s.treasury,
    fundAccounts := fun x => if x = f then
        { a1 with balance := a1.balance - (amount + fee),
                  todaySpent := a1.todaySpent + amount }
      else s.fundAccounts x,
    purchases := s.purchases ++
      [{ fund := f, bot := b, recipient := r, amount := amount, fee := fee,
         timestamp := now, metadata := md }],
    fundPurchaseIndices := fun x =>
      if x = f then s.fundPurchaseIndices f ++ [s.purchases.length]
      else s.fundPurchaseIndices x }

theorem purchase_ok_eq
    (s : VaultState) (f b r amount : Nat) (md : String) (now : Nat)
    (a1 : FundAccount) (fee : Nat)
    (ha1 : resetDailyLimitIfNeeded (s.fundAccounts f) now = a1)
    (hfee : computeFee amount s.platformFeeBps = fee)
    (hr : r ≠ 0) (ha : amount ≠ 0)
    (hauth : (s.fundAccounts f).authorizedBots b = true)
    (hptx : a1.perTransactionLimit = 0 ∨ amount ≤ a1.perTransactionLimit)
    (hdl : a1.dailySpendingLimit = 0 ∨ a1.todaySpent + amount ≤ a1.dailySpendingLimit)
    (hbal : amount + fee ≤ a1.balance) :
    purchaseOnBehalf s f b r amount md now true true =
      .ok (purchaseOkState s f b r amount fee md now a1, s.purchases.length) := by
  simp only [purchaseOnBehalf, ha1, hfee]
  rw [if_neg hr, if_neg ha, if_neg (by simp [hauth]),
    if_neg (by omega), if_neg (by omega), if_neg (by omega),
    if_neg (by simp), if_neg (by simp)]
  rfl

theorem purchase_pertx_err
    (s : VaultState) (f b r amount : Nat) (md : String) (now : Nat)
    (t1 t2 : Bool)
    (hr : r ≠ 0) (ha : amount ≠ 0)
    (hauth : (s.fundAccounts f).authorizedBots b = true)
    (hptx : (resetDailyLimitIfNeeded (s.fundAccounts f) now).perTransactionLimit ≠ 0)
    (hgt : amount > (resetDailyLimitIfNeeded (s.fundAccounts f) now).perTransactionLimit) :
    purchaseOnBehalf s f b r amount md now t1 t2 = .error .exceedsPerTransactionLimit := by
  simp only [purchaseOnBehalf]
  rw [if_neg hr, if_neg ha, if_neg (by simp [hauth]), if_pos (by omega)]

theorem purchase_daily_err
    (s : VaultState) (f b r amount : Nat) (md : String) (now : Nat)
    (t1 t2 : Bool)
    (hr : r ≠ 0) (ha : amount ≠ 0)
    (hauth : (s.fundAccounts f).authorizedBots b = true)
    (hptx : (resetDailyLimitIfNeeded (s.fundAccounts f) now).perTransactionLimit = 0 ∨
      amount ≤ (resetDailyLimitIfNeeded (s.fundAccounts f) now).perTransactionLimit)
    (hdl : (resetDailyLimitIfNeeded (s.fundAccounts f) now).dailySpendingLimit ≠ 0)
    (hgt : (resetDailyLimitIfNeeded (s.fundAccounts f) now).todaySpent + amount >
      (resetDailyLimitIfNeeded (s.fundAccounts f) now).dailySpendingLimit) :
    purchaseOnBehalf s f b r amount md now t1 t2 = .error .exceedsDailyLimit := by
  simp only [purchaseOnBehalf]
  rw [if_neg hr, if_neg ha, if_neg (by simp [hauth]),
    if_neg (by omega), if_pos (by omega)]

/-- Eliminate a successful `purchaseOnBehalf`: recover the assigned id, the
resulting state, and the fact that every validation passed. -/
theorem purchase_ok_elim {s s' : VaultState} {f b r amount pid : Nat}
    {md : String} {now : Nat} {t1 t2 : Bool}
    (h : purchaseOnBehalf s f b r amount md now t1 t2 = .ok (s', pid)) :
    pid = s.purchases.length ∧
    s' = purchaseOkState s f b r amount (computeFee amount s.platformFeeBps) md now
      (resetDailyLimitIfNeeded (s.fundAccounts f) now) ∧
    amount + computeFee amount s.platformFeeBps ≤
      (resetDailyLimitIfNeeded (s.fundAccounts f) now).balance ∧
    r ≠ 0 ∧ amount ≠ 0 ∧
    (s.fundAccounts f).authorizedBots b = true ∧
    ¬((resetDailyLimitIfNeeded (s.fundAccounts f) now).perTransactionLimit > 0 ∧
      amount > (resetDailyLimitIfNeeded (s.fundAccounts f) now).perTransactionLimit) ∧
    ¬((resetDailyLimitIfNeeded (s.fundAccounts f) now).dailySpendingLimit > 0 ∧
      (resetDailyLimitIfNeeded (s.fundAccounts f) now).todaySpent + amount >
        (resetDailyLimitIfNeeded (s.fundAccounts f) now).dailySpendingLimit) ∧
    t1 = true ∧ t2 = true := by
  simp only [purchaseOnBehalf] at h
  split at h
  · exact Except.noConfusion h
  split at h
  · exact Except.noConfusion h
  split at h
  · exact Except.noConfusion h
  split at h
  · exact Except.noConfusion h
  split at h
  · exact Except.noConfusion h
  split at h
  · exact Except.noConfusion h
  split at h
  · exact Except.noConfusion h
  split at h
  · exact Except.noConfusion h
  rename_i h1 h2 h3 h4 h5 h6 h7 h8
  simp only [Except.ok.injEq, Prod.mk.injEq] at h
  refine ⟨h.2.symm, h.1.symm, by omega, h1, h2, by simpa using h3, h4, h5,
    by simpa using h7, by simpa using h8⟩

/-! ## Field lemmas for state updates -/

@[simp] theorem setAccount_same (s : VaultState) (f : Nat) (a : FundAccount) :
    (setAccount s f a).fundAccounts f = a := by
  simp [setAccount]

theorem setAccount_other {g f : Nat} (h : g ≠ f) (s : VaultState) (a : FundAccount) :
    (setAccount s f a).fundAccounts g = s.fundAccounts g := by
  simp [setAccount, h]

@[simp] theorem setAccount_purchases (s : VaultState) (f : Nat) (a : FundAccount) :
    (setAccount s f a).purchases = s.purchases := rfl

@[simp] theorem setAccount_indices (s : VaultState) (f : Nat) (a : FundAccount) :
    (setAccount s f a).fundPurchaseIndices = s.fundPurchaseIndices := rfl

@[simp] theorem purchaseOkState_fundAccounts_same
    (s : VaultState) (f b r amount fee : Nat) (md : String) (now : Nat) (a1 : FundAccount) :
    (purchaseOkState s f b r amount fee md now a1).fundAccounts f =
      { a1 with balance := a1.balance - (amount + fee),
                todaySpent := a1.todaySpent + amount } := by
  simp [purchaseOkState]

theorem purchaseOkState_fundAccounts_other {g f : Nat} (h : g ≠ f)
    (s : VaultState) (b r amount fee : Nat) (md : String) (now : Nat) (a1 : FundAccount) :
    (purchaseOkState s f b r amount fee md now a1).fundAccounts g = s.fundAccounts g := by
  simp [purchaseOkState, h]

@[simp] theorem purchaseOkState_purchases
    (s : VaultState) (f b r amount fee : Nat) (md : String) (now : Nat) (a1 : FundAccount) :
    (purchaseOkState s f b r amount fee md now a1).purchases =
      s.purchases ++
        [{ fund := f, bot := b, recipient := r, amount := amount, fee := fee,
           timestamp := now, metadata := md }] := rfl

theorem purchaseOkState_indices_other {g f : Nat} (h : g ≠ f)
    (s : VaultState) (b r amount fee : Nat) (md : String) (now : Nat) (a1 : FundAccount) :
    (purchaseOkState s f b r amount fee md now a1).fundPurchaseIndices g =
      s.fundPurchaseIndices g := by
  simp [purchaseOkState, h]

/-! ## Elimination lemmas for the remaining operations -/

theorem deposit_ok_elim {s s' : VaultState} {f amount : Nat} {tok : Bool}
    (h : deposit s f amount tok = .ok s') :
    s' = setAccount s f
      { s.fundAccounts f with balance := (s.fundAccounts f).balance + amount } ∧
    amount ≠ 0 := by
  simp only [deposit] at h
  split at h
  · exact Except.noConfusion h
  split at h
  · exact Except.noConfusion h
  simp only [Except.ok.injEq] at h
  exact ⟨h.symm, by omega⟩

theorem withdraw_ok_elim {s s' : VaultState} {f amount : Nat} {tok : Bool}
    (h : withdraw s f amount tok = .ok s') :
    s' = setAccount s f
      { s.fundAccounts f with balance := (s.fundAccounts f).balance - amount } ∧
    amount ≤ (s.fundAccounts f).balance ∧ amount ≠ 0 := by
  simp only [withdraw] at h
  split at h
  · exact Except.noConfusion h
  split at h
  case isTrue hlt => exact Except.noConfusion h
  case isFalse hlt =>
    split at h
    · exact Except.noConfusion h
    simp only [Except.ok.injEq] at h
    exact ⟨h.symm, by omega, by omega⟩

theorem authorizeBot_ok_elim {s s' : VaultState} {f bot : Nat}
    (h : authorizeBot s f bot = .ok s') :
    s' = setAccount s f
      { s.fundAccounts f with authorizedBots := fun x =>
          if x = bot then true else (s.fundAccounts f).authorizedBots x } ∧
    bot ≠ 0 := by
  simp only [authorizeBot] at h
  split at h
  · exact Except.noConfusion h
  split at h
  · exact Except.noConfusion h
  simp only [Except.ok.injEq] at h
  exact ⟨h.symm, by omega⟩

theorem revokeBot_ok_elim {s s' : VaultState} {f bot : Nat}
    (h : revokeBot s f bot = .ok s') :
    s' = setAccount s f
      { s.fundAccounts f with authorizedBots := fun x =>
          if x = bot then false else (s.fundAccounts f).authorizedBots x } := by
  simp only [revokeBot] at h
  split at h
  · exact Except.noConfusion h
  simp only [Except.ok.injEq] at h
  exact h.symm

theorem setLimits_ok_elim {s s' : VaultState} {f d p : Nat}
    (h : setLimits s f d p = .ok s') :
    s' = setAccount s f
      { s.fundAccounts f with dailySpendingLimit := d, perTransactionLimit := p } := by
  simp only [setLimits] at h
  split at h
  case isTrue hc =>
    simp only [Except.ok.injEq] at h
    exact h.symm
  case isFalse hc => exact Except.noConfusion h

/-! ## Frame lemmas -/

/-- Whether an operation is one of the authorization-matrix mutations. -/
def Op.isAuthKind : Op → Bool
  | .authorizeBot _ => true
  | .revokeBot _ => true
  | _ => false

/-- A successful operation on fund `f` leaves the account and the per-fund
purchase index of every other fund unchanged. -/
theorem stepOp_ok_frame {s s' : VaultState} {f : Nat} {op : Op}
    (h : stepOp s f op = .ok s') (g : Nat) (hgf : g ≠ f) :
    s'.fundAccounts g = s.fundAccounts g ∧
    s'.fundPurchaseIndices g = s.fundPurchaseIndices g := by
  cases op with
  | deposit amount tok =>
      obtain ⟨rfl, -⟩ := deposit_ok_elim h
      exact ⟨setAccount_other hgf .., rfl⟩
  | withdraw amount tok =>
      obtain ⟨rfl, -⟩ := withdraw_ok_elim h
      exact ⟨setAccount_other hgf .., rfl⟩
  | authorizeBot b =>
      obtain ⟨rfl, -⟩ := authorizeBot_ok_elim h
      exact ⟨setAccount_other hgf .., rfl⟩
  | revokeBot b =>
      have := revokeBot_ok_elim h
      subst this
      exact ⟨setAccount_other hgf .., rfl⟩
  | setLimits d p =>
      have := setLimits_ok_elim h
      subst this
      exact ⟨setAccount_other hgf .., rfl⟩
  | purchase b r a md now t1 t2 =>
      simp only [stepOp] at h
      cases hp : purchaseOnBehalf s f b r a md now t1 t2 with
      | error e => rw [hp] at h; exact Except.noConfusion h
      | ok v =>
          obtain ⟨s2, pid⟩ := v
          rw [hp] at h
          simp only [Except.map, Except.ok.injEq] at h
          obtain ⟨-, hs, -⟩ := purchase_ok_elim hp
          subst h
          rw [hs]
          exact ⟨purchaseOkState_fundAccounts_other hgf .., purchaseOkState_indices_other hgf ..⟩

/-- `runOp` version of the frame property. -/
theorem runOp_frame (s : VaultState) (f : Nat) (op : Op) (g : Nat) (hgf : g ≠ f) :
    (runOp s f op).fundAccounts g = s.fundAccounts g ∧
    (runOp s f op).fundPurchaseIndices g = s.fundPurchaseIndices g := by
  unfold runOp
  cases hs : stepOp s f op with
  | ok s' => exact stepOp_ok_frame hs g hgf
  | error e => exact ⟨rfl, rfl⟩

/-- A successful operation on `f` that is not `authorizeBot`/`revokeBot`
leaves even `f`'s own authorization set unchanged. -/
theorem stepOp_ok_auth {s s' : VaultState} {f : Nat} {op : Op}
    (h : stepOp s f op = .ok s') (hk : op.isAuthKind = false) (b : Nat) :
    (s'.fundAccounts f).authorizedBots b = (s.fundAccounts f).authorizedBots b := by
  cases op with
  | deposit amount tok =>
      obtain ⟨rfl, -⟩ := deposit_ok_elim h
      simp
  | withdraw amount tok =>
      obtain ⟨rfl, -⟩ := withdraw_ok_elim h
      simp
  | authorizeBot b' => simp [Op.isAuthKind] at hk
  | revokeBot b' => simp [Op.isAuthKind] at hk
  | setLimits d p =>
      have := setLimits_ok_elim h
      subst this
      simp
  | purchase b' r a md now t1 t2 =>
      simp only [stepOp] at h
      cases hp : purchaseOnBehalf s f b' r a md now t1 t2 with
      | error e => rw [hp] at h; exact Except.noConfusion h
      | ok v =>
          obtain ⟨s2, pid⟩ := v
          rw [hp] at h
          simp only [Except.map, Except.ok.injEq] at h
          obtain ⟨-, hs, -⟩ := purchase_ok_elim hp
          subst h
          rw [hs]
          simp

/-! ## Conservation of the accounting balance -/

/-- State after a sequence of operations all targeting fund `f`. -/
def runOpsF (s : VaultState) (f : Nat) : List Op → VaultState
  | [] => s
  | op :: rest => runOpsF (runOp s f op) f rest

/-- Amount contributed by `op` if it is a successful deposit, else `0`. -/
def depositContribution (s : VaultState) (f : Nat) : Op → Nat
  | .deposit amount tok => if exceptOk (deposit s f amount tok) then amount else 0
  | _ => 0

/-- Amount contributed by `op` if it is a successful withdrawal, else `0`. -/
def withdrawContribution (s : VaultState) (f : Nat) : Op → Nat
  | .withdraw amount tok => if exceptOk (withdraw s f amount tok) then amount else 0
  | _ => 0

/-- Principal plus fee contributed by `op` if it is a successful purchase,
else `0`. -/
def purchaseContribution (s : VaultState) (f : Nat) : Op → Nat
  | .purchase b r a md now t1 t2 =>
      if exceptOk (purchaseOnBehalf s f b r a md now t1 t2) then
        a + computeFee a s.platformFeeBps
      else 0
  | _ => 0

/-- Sum of the amounts of the successful deposits in a sequence of
operations on fund `f`, evaluated along the evolving state. -/
def sumDeposits (s : VaultState) (f : Nat) : List Op → Nat
  | [] => 0
  | op :: rest => depositContribution s f op + sumDeposits (runOp s f op) f rest

/-- Sum of the amounts of the successful withdrawals. -/
def sumWithdrawals (s : VaultState) (f : Nat) : List Op → Nat
  | [] => 0
  | op :: rest => withdrawContribution s f op + sumWithdrawals (runOp s f op) f rest

/-- Sum of `amount + fee` over the successful purchases. -/
def sumPurchaseTotals (s : VaultState) (f : Nat) : List Op → Nat
  | [] => 0
  | op :: rest => purchaseContribution s f op + sumPurchaseTotals (runOp s f op) f rest

/-- One-step balance accounting: the new balance plus what left the account
equals the old balance plus what entered it. -/
theorem runOp_balance_step (s : VaultState) (f : Nat) (op : Op) :
    ((runOp s f op).fundAccounts f).balance
        + withdrawContribution s f op + purchaseContribution s f op
      = (s.fundAccounts f).balance + depositContribution s f op := by
  cases op with
  | deposit amount tok =>
      simp only [runOp, stepOp, depositContribution, withdrawContribution,
        purchaseContribution]
      cases hd : deposit s f amount tok with
      | error e => simp [hd, exceptOk]
      | ok s' =>
          obtain ⟨rfl, -⟩ := deposit_ok_elim hd
          simp [hd, exceptOk]
  | withdraw amount tok =>
      simp only [runOp, stepOp, depositContribution, withdrawContribution,
        purchaseContribution]
      cases hd : withdraw s f amount tok with
      | error e => simp [hd, exceptOk]
      | ok s' =>
          obtain ⟨rfl, hle, -⟩ := withdraw_ok_elim hd
          simp [hd, exceptOk]
          omega
  | authorizeBot b =>
      simp only [runOp, stepOp, depositContribution, withdrawContribution,
        purchaseContribution]
      cases hd : authorizeBot s f b with
      | error e => simp [hd]
      | ok s' =>
          obtain ⟨rfl, -⟩ := authorizeBot_ok_elim hd
          simp [hd]
  | revokeBot b =>
      simp only [runOp, stepOp, depositContribution, withdrawContribution,
        purchaseContribution]
      cases hd : revokeBot s f b with
      | error e => simp [hd]
      | ok s' =>
          have := revokeBot_ok_elim hd
          subst this
          simp [hd]
  | setLimits d p =>
      simp only [runOp, stepOp, depositContribution, withdrawContribution,
        purchaseContribution]
      cases hd : setLimits s f d p with
      | error e => simp [hd]
      | ok s' =>
          have := setLimits_ok_elim hd
          subst this
          simp [hd]
  | purchase b r a md now t1 t2 =>
      simp only [runOp, stepOp, depositContribution, withdrawContribution,
        purchaseContribution]
      cases hp : purchaseOnBehalf s f b r a md now t1 t2 with
      | error e => simp [hp, exceptOk, Except.map]
      | ok v =>
          obtain ⟨s2, pid⟩ := v
          obtain ⟨-, hs, hle, -⟩ := purchase_ok_elim hp
          subst hs
          simp only [hp, exceptOk, Except.map, if_pos]
          simp
          have hb := reset_balance (s.fundAccounts f) now
          omega

/-- Conservation over a whole operation sequence (addition-only form). -/
theorem runOpsF_conservation (f : Nat) (ops : List Op) (s : VaultState) :
    ((runOpsF s f ops).fundAccounts f).balance
        + sumWithdrawals s f ops + sumPurchaseTotals s f ops
      = (s.fundAccounts f).balance + sumDeposits s f ops := by
  induction ops generalizing s with
  | nil => simp [runOpsF, sumWithdrawals, sumPurchaseTotals, sumDeposits]
  | cons op rest ih =>
      simp only [runOpsF, sumWithdrawals, sumPurchaseTotals, sumDeposits]
      have h1 := runOp_balance_step s f op
      have h2 := ih (runOp s f op)
      omega

/-! ## Ledger lemmas -/

/-- A successful operation either leaves the ledger unchanged or appends a
single record at the end. -/
theorem stepOp_ok_purchases {s s' : VaultState} {f : Nat} {op : Op}
    (h : stepOp s f op = .ok s') :
    s'.purchases = s.purchases ∨ ∃ p, s'.purchases = s.purchases ++ [p] := by
  cases op with
  | deposit amount tok =>
      obtain ⟨rfl, -⟩ := deposit_ok_elim h
      exact .inl rfl
  | withdraw amount tok =>
      obtain ⟨rfl, -⟩ := withdraw_ok_elim h
      exact .inl rfl
  | authorizeBot b =>
      obtain ⟨rfl, -⟩ := authorizeBot_ok_elim h
      exact .inl rfl
  | revokeBot b =>
      have := revokeBot_ok_elim h
      subst this
      exact .inl rfl
  | setLimits d p =>
      have := setLimits_ok_elim h
      subst this
      exact .inl rfl
  | purchase b r a md now t1 t2 =>
      simp only [stepOp] at h
      cases hp : purchaseOnBehalf s f b r a md now t1 t2 with
      | error e => rw [hp] at h; exact Except.noConfusion h
      | ok v =>
          obtain ⟨s2, pid⟩ := v
          rw [hp] at h
          simp only [Except.map, Except.ok.injEq] at h
          obtain ⟨-, hs, -⟩ := purchase_ok_elim hp
          subst h
          rw [hs]
          exact .inr ⟨_, rfl⟩

/-- `runOp` version: the ledger is unchanged or extended by one record. -/
theorem runOp_purchases (s : VaultState) (f : Nat) (op : Op) :
    (runOp s f op).purchases = s.purchases ∨
    ∃ p, (runOp s f op).purchases = s.purchases ++ [p] := by
  unfold runOp
  cases hs : stepOp s f op with
  | ok s' => exact stepOp_ok_purchases hs
  | error e => exact .inl rfl

/-- `getPurchase` at an index already in range is unchanged by any
operation. -/
theorem getPurchase_stable (s : VaultState) (f : Nat) (op : Op) (pid : Nat)
    (hid : pid < getTotalPurchases s) :
    getPurchase (runOp s f op) pid = getPurchase s pid := by
  rcases runOp_purchases s f op with hpp | ⟨p, hpp⟩
  · unfold getPurchase
    rw [hpp]
  · unfold getPurchase getTotalPurchases at *
    have h1 : pid < (runOp s f op).purchases.length := by
      rw [hpp]; simp; omega
    rw [dif_pos h1, dif_pos hid]
    congr 1
    simp only [List.get_eq_getElem, hpp]
    exact List.getElem_append_left hid

/-- `getPurchase` fails exactly on out-of-range ids. -/
theorem getPurchase_error_iff (s : VaultState) (pid : Nat) :
    getPurchase s pid = .error .invalidPurchaseId ↔ getTotalPurchases s ≤ pid := by
  unfold getPurchase getTotalPurchases
  split
  case isTrue h => simp; omega
  case isFalse h => simp; omega

/-! ## The end-to-end scenario (claim C1)

From a fresh vault (fee 200 bps) with treasury `4`: fund `1` deposits
1000.00 units, authorizes bot `2`, sets `dailyLimit = 500.00` and
`perTxLimit = 150.00`; bot `2` then repeatedly purchases 150.00 units for
recipient `3`. -/

def c1Deposit : VaultState := runOp (initialState 4) 1 (.deposit 1000000000 true)

def c1Auth : VaultState := runOp c1Deposit 1 (.authorizeBot 2)

def c1Limits : VaultState := runOp c1Auth 1 (.setLimits 500000000 150000000)

def c1After1 : VaultState := purchaseRun c1Limits 1 2 3 150000000 "svc" 0 true true

def c1After2 : VaultState := purchaseRun c1After1 1 2 3 150000000 "svc" 0 true true

def c1After3 : VaultState := purchaseRun c1After2 1 2 3 150000000 "svc" 0 true true

def c1After4 : VaultState := purchaseRun c1After3 1 2 3 150000000 "svc" 0 true true

/-- C1 counterexample: in the spec's end-to-end scenario the third 150.00
purchase does NOT fail with `ExceedsDailyLimit` — it succeeds (todaySpent
moves from 300.00 to 450.00 ≤ 500.00) and the balance drops to 541.00. -/
theorem C1_counterexample :
    exceptOk (purchaseOnBehalf c1After2 1 2 3 150000000 "svc" 0 true true) = true ∧
    errOf (purchaseOnBehalf c1After2 1 2 3 150000000 "svc" 0 true true) ≠
      some .exceedsDailyLimit ∧
    getFundAccount c1After3 1 = ⟨541000000, 500000000, 150000000, 450000000, 0⟩ := by
  decide

/-- C1 (amended): in the end-to-end scenario the first execute succeeds
with fee 3.00 leaving balance 847.00 and todaySpent 150.00; the second
succeeds leaving todaySpent 300.00; the third also succeeds, leaving
balance 541.00 and todaySpent 450.00; a fourth identical execute the same
day fails with `ExceedsDailyLimit`, and balance and todaySpent remain at
their post-third-purchase values. -/
theorem C1_amended :
    getFundAccount c1Limits 1 = ⟨1000000000, 500000000, 150000000, 0, 0⟩ ∧
    isBotAuthorized c1Limits 1 2 = true ∧
    exceptOk (purchaseOnBehalf c1Limits 1 2 3 150000000 "svc" 0 true true) = true ∧
    okOf (getPurchase c1After1 0) = some ⟨1, 2, 3, 150000000, 3000000, 0, "svc"⟩ ∧
    getFundAccount c1After1 1 = ⟨847000000, 500000000, 150000000, 150000000, 0⟩ ∧
    exceptOk (purchaseOnBehalf c1After1 1 2 3 150000000 "svc" 0 true true) = true ∧
    getFundAccount c1After2 1 = ⟨694000000, 500000000, 150000000, 300000000, 0⟩ ∧
    exceptOk (purchaseOnBehalf c1After2 1 2 3 150000000 "svc" 0 true true) = true ∧
    getFundAccount c1After3 1 = ⟨541000000, 500000000, 150000000, 450000000, 0⟩ ∧
    errOf (purchaseOnBehalf c1After3 1 2 3 150000000 "svc" 0 true true) =
      some .exceedsDailyLimit ∧
    getFundAccount c1After4 1 = ⟨541000000, 500000000, 150000000, 450000000, 0⟩ := by
  decide

/-! ## Fee exactness (claim C2) -/

/-- C2 counterexample: the spec's second truncation example is wrong — at
`amount = 33_330000`, `bps = 200` the fee is `666600`
(`33_330000 * 200 / 10000`), not `666`. -/
theorem C2_counterexample :
    computeFee 33330000 200 = 666600 ∧ computeFee 33330000 200 ≠ 666 := by
  decide

/-- C2 (amended): for every fee rate `bps ≤ 1000`, a successful purchase
charges exactly `floor(amount * bps / 10000)`: the recorded purchase's fee
is that value, and the fund's balance decreases by exactly
`amount + floor(amount * bps / 10000)`; `computeFee` is literal floor
division; `amount = 100_000000, bps = 200` gives fee `2_000000`, and
`amount = 33_330000, bps = 200` gives fee `666600`. -/
theorem C2_amended
    (s s' : VaultState) (f b r amount pid : Nat) (md : String) (now : Nat)
    (t1 t2 : Bool)
    (_hbps : s.platformFeeBps ≤ 1000)
    (h : purchaseOnBehalf s f b r amount md now t1 t2 = .ok (s', pid)) :
    getPurchase s' pid =
      .ok ⟨f, b, r, amount, amount * s.platformFeeBps / 10000, now, md⟩ ∧
    (s'.fundAccounts f).balance + (amount + amount * s.platformFeeBps / 10000) =
      (s.fundAccounts f).balance ∧
    computeFee amount s.platformFeeBps = amount * s.platformFeeBps / 10000 ∧
    computeFee 100000000 200 = 2000000 ∧
    computeFee 33330000 200 = 666600 := by
  obtain ⟨hpid, hs, hle, -⟩ := purchase_ok_elim h
  have hfee : computeFee amount s.platformFeeBps = amount * s.platformFeeBps / 10000 := rfl
  refine ⟨?_, ?_, hfee, by decide, by decide⟩
  · subst hs hpid
    unfold getPurchase
    have hlen : s.purchases.length <
        (purchaseOkState s f b r amount (computeFee amount s.platformFeeBps) md now
          (resetDailyLimitIfNeeded (s.fundAccounts f) now)).purchases.length := by
      simp [purchaseOkState]
    rw [dif_pos hlen]
    simp [purchaseOkState, hfee]
  · subst hs
    have hb := reset_balance (s.fundAccounts f) now
    simp only [purchaseOkState_fundAccounts_same]
    rw [← hfee]
    omega

/-! ## Rollback on transfer failure (claim C3) -/

/-- If either transfer flag is down, `purchaseOnBehalf` reverts with some
error. -/
theorem purchase_flag_err (s : VaultState) (f b r amount : Nat) (md : String)
    (now : Nat) (t1 t2 : Bool) (hflag : t1 = false ∨ t2 = false) :
    ∃ e, purchaseOnBehalf s f b r amount md now t1 t2 = .error e := by
  simp only [purchaseOnBehalf]
  split
  · exact ⟨_, rfl⟩
  split
  · exact ⟨_, rfl⟩
  split
  · exact ⟨_, rfl⟩
  split
  · exact ⟨_, rfl⟩
  split
  · exact ⟨_, rfl⟩
  split
  · exact ⟨_, rfl⟩
  split
  · exact ⟨_, rfl⟩
  split
  · exact ⟨_, rfl⟩
  rename_i h7 h8
  rcases hflag with hf | hf
  · exact absurd hf h7
  · exact absurd hf h8

/-- C3: if the external transfer of the principal to the recipient or of
the fee to the treasury fails, the call reverts (failure surfaced), the
whole observed state — in particular `balance` and `todaySpent` — equals
its pre-call value, and no `Purchase` is appended; when every validation
would otherwise pass, the surfaced error is precisely the corresponding
transfer failure. -/
theorem C3_rollback (s : VaultState) (f b r amount : Nat) (md : String)
    (now : Nat) (t1 t2 : Bool) (hflag : t1 = false ∨ t2 = false) :
    exceptOk (purchaseOnBehalf s f b r amount md now t1 t2) = false ∧
    purchaseRun s f b r amount md now t1 t2 = s ∧
    (exceptOk (purchaseOnBehalf s f b r amount md now true true) = true →
      purchaseOnBehalf s f b r amount md now t1 t2 =
        .error (if t1 = false then .transferToRecipientFailed else .feeTransferFailed)) := by
  obtain ⟨e, he⟩ := purchase_flag_err s f b r amount md now t1 t2 hflag
  refine ⟨by rw [he]; rfl, by unfold purchaseRun; rw [he], ?_⟩
  intro hok
  have hok' : ∃ s' pid, purchaseOnBehalf s f b r amount md now true true = .ok (s', pid) := by
    revert hok
    cases hx : purchaseOnBehalf s f b r amount md now true true with
    | ok v =>
        obtain ⟨s2, pid2⟩ := v
        exact fun _ => ⟨s2, pid2, rfl⟩
    | error e' => exact fun hok2 => absurd hok2 (by simp [exceptOk])
  obtain ⟨s', pid, hx⟩ := hok'
  obtain ⟨-, -, hle, hr, ha, hauth, hptx, hdl, -, -⟩ := purchase_ok_elim hx
  by_cases ht1 : t1 = false
  · simp only [purchaseOnBehalf]
    rw [if_neg hr, if_neg ha, if_neg (by simp [hauth]), if_neg hptx, if_neg hdl,
      if_neg (by omega), if_pos ht1, if_pos ht1]
  · have ht2 : t2 = false := hflag.resolve_left ht1
    simp only [purchaseOnBehalf]
    rw [if_neg hr, if_neg ha, if_neg (by simp [hauth]), if_neg hptx, if_neg hdl,
      if_neg (by omega), if_neg ht1, if_pos ht2, if_neg ht1]

/-! ## Conservation (claim C4) -/

/-- C4: over any finite sequence of operations on a single fund, the final
balance equals the initial balance plus the successful deposits, minus the
successful withdrawals, minus `amount + fee` over the successful purchases;
failed operations contribute nothing (the contribution functions are zero
on failures by definition). -/
theorem C4_conservation (s : VaultState) (f : Nat) (ops : List Op) :
    (((runOpsF s f ops).fundAccounts f).balance : ℤ) =
      ((s.fundAccounts f).balance : ℤ) + sumDeposits s f ops
        - sumWithdrawals s f ops - sumPurchaseTotals s f ops := by
  have := runOpsF_conservation f ops s
  omega

/-! ## Daily reset (claim C5) -/

@[simp] theorem purchaseOkState_platformFeeBps
    (s : VaultState) (f b r amount fee : Nat) (md : String) (now : Nat) (a1 : FundAccount) :
    (purchaseOkState s f b r amount fee md now a1).platformFeeBps = s.platformFeeBps := rfl

/-- C5: with `perTxLimit = L ≠ 0`, `dailyLimit = 2L`, an authorized bot and
sufficient balance, starting on a fresh day: two executes of amount `L` at
`now1` succeed (todaySpent reaching `2L`); a third identical call the same
day fails with `ExceedsDailyLimit`, leaving the state unchanged; after the
clock advances so that `dayIndex now2` exceeds the last reset day, the same
call succeeds and todaySpent afterwards is exactly `L`. -/
theorem C5_daily_reset
    (s s1 s2 s3 : VaultState) (f b r L : Nat) (md : String) (now1 now2 : Nat)
    (hr : r ≠ 0) (hL : L ≠ 0)
    (hauth : (s.fundAccounts f).authorizedBots b = true)
    (hlimP : (s.fundAccounts f).perTransactionLimit = L)
    (hlimD : (s.fundAccounts f).dailySpendingLimit = 2 * L)
    (hday1 : dayIndex now1 > (s.fundAccounts f).lastResetDay)
    (hday2 : dayIndex now2 > dayIndex now1)
    (hbal : 3 * (L + computeFee L s.platformFeeBps) ≤ (s.fundAccounts f).balance)
    (hs1 : s1 = purchaseRun s f b r L md now1 true true)
    (hs2 : s2 = purchaseRun s1 f b r L md now1 true true)
    (hs3 : s3 = purchaseRun s2 f b r L md now1 true true) :
    exceptOk (purchaseOnBehalf s f b r L md now1 true true) = true ∧
    exceptOk (purchaseOnBehalf s1 f b r L md now1 true true) = true ∧
    (s2.fundAccounts f).todaySpent = 2 * L ∧
    purchaseOnBehalf s2 f b r L md now1 true true = .error .exceedsDailyLimit ∧
    s3 = s2 ∧
    exceptOk (purchaseOnBehalf s2 f b r L md now2 true true) = true ∧
    ((purchaseRun s2 f b r L md now2 true true).fundAccounts f).todaySpent = L := by
  have hreset1 : resetDailyLimitIfNeeded (s.fundAccounts f) now1 =
      { s.fundAccounts f with todaySpent := 0, lastResetDay := dayIndex now1 } :=
    reset_of_gt hday1
  have h1eq := purchase_ok_eq s f b r L md now1
    { s.fundAccounts f with todaySpent := 0, lastResetDay := dayIndex now1 }
    (computeFee L s.platformFeeBps) hreset1 rfl hr hL hauth
    (by simp [hlimP])
    (by simp [hlimD]; omega)
    (by simp; omega)
  have hc1 : exceptOk (purchaseOnBehalf s f b r L md now1 true true) = true := by
    rw [h1eq]; rfl
  have hs1eq : s1 = purchaseOkState s f b r L (computeFee L s.platformFeeBps) md now1
      { s.fundAccounts f with todaySpent := 0, lastResetDay := dayIndex now1 } := by
    rw [hs1]; unfold purchaseRun; rw [h1eq]
  have hfee1 : s1.platformFeeBps = s.platformFeeBps := by
    rw [hs1eq, purchaseOkState_platformFeeBps]
  have hacc1 : s1.fundAccounts f =
      { s.fundAccounts f with
          balance := (s.fundAccounts f).balance - (L + computeFee L s.platformFeeBps),
          todaySpent := 0 + L, lastResetDay := dayIndex now1 } := by
    rw [hs1eq, purchaseOkState_fundAccounts_same]
  have hreset2 : resetDailyLimitIfNeeded (s1.fundAccounts f) now1 = s1.fundAccounts f :=
    reset_of_le (by simp [hacc1])
  have h2eq := purchase_ok_eq s1 f b r L md now1 (s1.fundAccounts f)
    (computeFee L s1.platformFeeBps) hreset2 rfl hr hL
    (by simp [hacc1, hauth])
    (by simp [hacc1, hlimP])
    (by simp [hacc1, hlimD]; omega)
    (by rw [hfee1]; simp [hacc1]; omega)
  have hc2 : exceptOk (purchaseOnBehalf s1 f b r L md now1 true true) = true := by
    rw [h2eq]; rfl
  have hs2eq : s2 = purchaseOkState s1 f b r L (computeFee L s1.platformFeeBps) md now1
      (s1.fundAccounts f) := by
    rw [hs2]; unfold purchaseRun; rw [h2eq]
  have hfee2 : s2.platformFeeBps = s.platformFeeBps := by
    rw [hs2eq, purchaseOkState_platformFeeBps, hfee1]
  have hacc2 : s2.fundAccounts f =
      { s1.fundAccounts f with
          balance := (s1.fundAccounts f).balance - (L + computeFee L s1.platformFeeBps),
          todaySpent := (s1.fundAccounts f).todaySpent + L } := by
    rw [hs2eq, purchaseOkState_fundAccounts_same]
  have hc3 : (s2.fundAccounts f).todaySpent = 2 * L := by
    rw [hacc2]; simp [hacc1]; omega
  have hauth2 : (s2.fundAccounts f).authorizedBots b = true := by
    rw [hacc2]; simp [hacc1, hauth]
  have hreset3 : resetDailyLimitIfNeeded (s2.fundAccounts f) now1 = s2.fundAccounts f :=
    reset_of_le (by rw [hacc2]; simp [hacc1])
  have hc4 : purchaseOnBehalf s2 f b r L md now1 true true = .error .exceedsDailyLimit := by
    refine purchase_daily_err s2 f b r L md now1 true true hr hL hauth2 ?_ ?_ ?_
    · rw [hreset3, hacc2]; simp [hacc1, hlimP]
    · rw [hreset3, hacc2]; simp [hacc1, hlimD]; omega
    · rw [hreset3, hacc2]; simp [hacc1, hlimD, hc3]
      rw [hacc2] at hc3
      omega
  have hc5 : s3 = s2 := by
    rw [hs3]; unfold purchaseRun; rw [hc4]
  have hlast2 : (s2.fundAccounts f).lastResetDay = dayIndex now1 := by
    rw [hacc2]; simp [hacc1]
  have hreset4 : resetDailyLimitIfNeeded (s2.fundAccounts f) now2 =
      { s2.fundAccounts f with todaySpent := 0, lastResetDay := dayIndex now2 } :=
    reset_of_gt (by rw [hlast2]; exact hday2)
  have h4eq := purchase_ok_eq s2 f b r L md now2
    { s2.fundAccounts f with todaySpent := 0, lastResetDay := dayIndex now2 }
    (computeFee L s2.platformFeeBps) hreset4 rfl hr hL hauth2
    (by rw [hacc2]; simp [hacc1, hlimP])
    (by rw [hacc2]; simp [hacc1, hlimD]; omega)
    (by rw [hfee2, hacc2]; simp [hacc1, hfee1]; omega)
  have hc6 : exceptOk (purchaseOnBehalf s2 f b r L md now2 true true) = true := by
    rw [h4eq]; rfl
  have hc7 : ((purchaseRun s2 f b r L md now2 true true).fundAccounts f).todaySpent = L := by
    unfold purchaseRun; rw [h4eq]
    simp [purchaseOkState_fundAccounts_same]
  exact ⟨hc1, hc2, hc3, hc4, hc5, hc6, hc7⟩

/-! ## Limit boundary (claim C6) -/

/-- C6: with `perTransactionLimit = p ≠ 0`, an authorized bot, a permitting
daily limit and sufficient balance, `execute` at `amount = p` succeeds,
while `execute` at `amount = p + 1` fails with
`ExceedsPerTransactionLimit` regardless of the daily limit, the balance and
the transfer outcomes (the per-transaction check comes first). -/
theorem C6_limit_boundary
    (s : VaultState) (f b r p : Nat) (md : String) (now : Nat) (t1 t2 : Bool)
    (hp : p = (s.fundAccounts f).perTransactionLimit)
    (hr : r ≠ 0)
    (hauth : (s.fundAccounts f).authorizedBots b = true)
    (hP : p ≠ 0)
    (hdl : (resetDailyLimitIfNeeded (s.fundAccounts f) now).dailySpendingLimit = 0 ∨
      (resetDailyLimitIfNeeded (s.fundAccounts f) now).todaySpent + p ≤
        (resetDailyLimitIfNeeded (s.fundAccounts f) now).dailySpendingLimit)
    (hbal : p + computeFee p s.platformFeeBps ≤ (s.fundAccounts f).balance) :
    exceptOk (purchaseOnBehalf s f b r p md now true true) = true ∧
    purchaseOnBehalf s f b r (p + 1) md now t1 t2 = .error .exceedsPerTransactionLimit := by
  constructor
  · have hok := purchase_ok_eq s f b r p md now
      (resetDailyLimitIfNeeded (s.fundAccounts f) now)
      (computeFee p s.platformFeeBps) rfl rfl hr hP hauth
      (Or.inr (by rw [reset_perTransactionLimit, ← hp])) hdl
      (by rw [reset_balance]; exact hbal)
    rw [hok]; rfl
  · exact purchase_pertx_err s f b r (p + 1) md now t1 t2 hr (by omega) hauth
      (by rw [reset_perTransactionLimit, ← hp]; exact hP)
      (by rw [reset_perTransactionLimit, ← hp]; omega)

/-! ## Fund isolation of authorization (claim C7) -/

/-- C7: no operation performed on fund `f1` ever changes
`isBotAuthorized f2 b` for a different fund `f2`; moreover an operation on
`f1` that is not `authorizeBot`/`revokeBot` does not change `f1`'s own
authorization set either. -/
theorem C7_isolation (s : VaultState) (f1 f2 b : Nat) (op : Op) (hne : f2 ≠ f1) :
    isBotAuthorized (runOp s f1 op) f2 b = isBotAuthorized s f2 b ∧
    (Op.isAuthKind op = false →
      isBotAuthorized (runOp s f1 op) f1 b = isBotAuthorized s f1 b) := by
  constructor
  · unfold isBotAuthorized
    rw [(runOp_frame s f1 op f2 hne).1]
  · intro hk
    unfold isBotAuthorized runOp
    cases hs : stepOp s f1 op with
    | ok s' => exact stepOp_ok_auth hs hk b
    | error e => rfl

/-! ## Append-only ledger (claim C8) -/

/-- C8: `count()` is non-decreasing across every operation; a `get` at an
in-range id is unchanged by any operation; `get(id)` fails with
`InvalidPurchaseId` exactly when `id ≥ count()`; and a successful execute
receives as id the pre-call `count()` — its position in the ledger — with
the new record appended at the end. -/
theorem C8_ledger_append_only (s : VaultState) (f : Nat) (op : Op) (pid : Nat) :
    getTotalPurchases s ≤ getTotalPurchases (runOp s f op) ∧
    (pid < getTotalPurchases s → getPurchase (runOp s f op) pid = getPurchase s pid) ∧
    (getPurchase s pid = .error .invalidPurchaseId ↔ getTotalPurchases s ≤ pid) ∧
    (∀ (b r amount : Nat) (md : String) (now : Nat) (t1 t2 : Bool)
        (s' : VaultState) (pid2 : Nat),
      purchaseOnBehalf s f b r amount md now t1 t2 = .ok (s', pid2) →
      pid2 = getTotalPurchases s ∧
      s'.purchases = s.purchases ++
        [⟨f, b, r, amount, computeFee amount s.platformFeeBps, now, md⟩] ∧
      getTotalPurchases s' = getTotalPurchases s + 1) := by
  refine ⟨?_, fun h => getPurchase_stable s f op pid h, getPurchase_error_iff s pid, ?_⟩
  · rcases runOp_purchases s f op with hpp | ⟨p, hpp⟩
    · unfold getTotalPurchases; rw [hpp]
    · unfold getTotalPurchases; rw [hpp]; simp
  · intro b r amount md now t1 t2 s' pid2 h
    obtain ⟨hpid, hs, -⟩ := purchase_ok_elim h
    subst hs
    refine ⟨hpid, rfl, ?_⟩
    unfold getTotalPurchases
    simp [purchaseOkState]

/-! ## No recipient constraint (claim C9) -/

/-- C9: `purchaseOnBehalf` treats every non-zero recipient identically —
for two non-zero recipients (in particular the bot itself, or the fund) the
call succeeds or fails the same way, with the same error, the same
resulting fund account and the same ledger length. -/
theorem C9_recipient_unconstrained
    (s : VaultState) (f b r1 r2 amount : Nat) (md : String) (now : Nat) (t1 t2 : Bool)
    (hr1 : r1 ≠ 0) (hr2 : r2 ≠ 0) :
    exceptOk (purchaseOnBehalf s f b r1 amount md now t1 t2) =
      exceptOk (purchaseOnBehalf s f b r2 amount md now t1 t2) ∧
    errOf (purchaseOnBehalf s f b r1 amount md now t1 t2) =
      errOf (purchaseOnBehalf s f b r2 amount md now t1 t2) ∧
    getFundAccount (purchaseRun s f b r1 amount md now t1 t2) f =
      getFundAccount (purchaseRun s f b r2 amount md now t1 t2) f ∧
    getTotalPurchases (purchaseRun s f b r1 amount md now t1 t2) =
      getTotalPurchases (purchaseRun s f b r2 amount md now t1 t2) := by
  simp only [purchaseRun, purchaseOnBehalf, if_neg hr1, if_neg hr2]
  by_cases h2 : amount = 0
  · simp only [if_pos h2]
    simp
  by_cases h3 : (s.fundAccounts f).authorizedBots b = false
  · simp only [if_neg h2, if_pos h3]
    simp
  by_cases h4 : (resetDailyLimitIfNeeded (s.fundAccounts f) now).perTransactionLimit > 0 ∧
      amount > (resetDailyLimitIfNeeded (s.fundAccounts f) now).perTransactionLimit
  · simp only [if_neg h2, if_neg h3, if_pos h4]
    simp
  by_cases h5 : (resetDailyLimitIfNeeded (s.fundAccounts f) now).dailySpendingLimit > 0 ∧
      (resetDailyLimitIfNeeded (s.fundAccounts f) now).todaySpent + amount >
        (resetDailyLimitIfNeeded (s.fundAccounts f) now).dailySpendingLimit
  · simp only [if_neg h2, if_neg h3, if_neg h4, if_pos h5]
    simp
  by_cases h6 : (resetDailyLimitIfNeeded (s.fundAccounts f) now).balance <
      amount + computeFee amount s.platformFeeBps
  · simp only [if_neg h2, if_neg h3, if_neg h4, if_neg h5, if_pos h6]
    simp
  by_cases h7 : t1 = false
  · simp only [if_neg h2, if_neg h3, if_neg h4, if_neg h5, if_neg h6, if_pos h7]
    simp
  by_cases h8 : t2 = false
  · simp only [if_neg h2, if_neg h3, if_neg h4, if_neg h5, if_neg h6, if_neg h7, if_pos h8]
    simp
  simp only [if_neg h2, if_neg h3, if_neg h4, if_neg h5, if_neg h6, if_neg h7, if_neg h8]
  refine ⟨rfl, rfl, rfl, ?_⟩
  simp [getTotalPurchases]

/-! ## Fresh funds (claim C10) -/

/-- Operations that never target fund `F` leave `F`'s account slot and
purchase index untouched. -/
theorem runOps_untouched (F : Nat) (ops : List (Nat × Op)) (s : VaultState)
    (hF : ∀ p ∈ ops, p.1 ≠ F) :
    (runOps s ops).fundAccounts F = s.fundAccounts F ∧
    (runOps s ops).fundPurchaseIndices F = s.fundPurchaseIndices F := by
  induction ops generalizing s with
  | nil => exact ⟨rfl, rfl⟩
  | cons hd tl ih =>
      obtain ⟨f, op⟩ := hd
      have hne : F ≠ f := Ne.symm (hF (f, op) (List.mem_cons_self _ _))
      have hframe := runOp_frame s f op F hne
      have hrest := ih (runOp s f op) (fun p hp => hF p (List.mem_cons_of_mem _ hp))
      exact ⟨hrest.1.trans hframe.1, hrest.2.trans hframe.2⟩

/-- C10: queries never fail for an unknown fund — after any sequence of
operations none of which targets `F`, `getFundAccount F` is all zeros,
`isBotAuthorized F b` is false for every bot, and `getFundPurchases F` is
empty. -/
theorem C10_unknown_fund (t : Nat) (ops : List (Nat × Op)) (F b : Nat)
    (hF : ∀ p ∈ ops, p.1 ≠ F) :
    getFundAccount (runOps (initialState t) ops) F = ⟨0, 0, 0, 0, 0⟩ ∧
    isBotAuthorized (runOps (initialState t) ops) F b = false ∧
    getFundPurchases (runOps (initialState t) ops) F = [] := by
  obtain ⟨hacc, hidx⟩ := runOps_untouched F ops (initialState t) hF
  refine ⟨?_, ?_, ?_⟩
  · unfold getFundAccount
    rw [hacc]
    rfl
  · unfold isBotAuthorized
    rw [hacc]
    rfl
  · unfold getFundPurchases
    rw [hidx]
    rfl

/-! ## Concrete witness states -/

/-- A vault state with fund `1` holding 1000.00 units, limits 500.00/150.00
and bot `2` authorized. -/
def witnessState : VaultState :=
  { platformFeeBps := 200, treasury := 9,
    fundAccounts := fun x => if x = 1 then
        { balance := 1000000000, dailySpendingLimit := 500000000,
          perTransactionLimit := 150000000, todaySpent := 0, lastResetDay := 0,
          authorizedBots := fun y => y == 2 }
      else emptyAccount,
    purchases := [], fundPurchaseIndices := fun _ => [] }

/-- A small state for the daily-reset scenario: `perTxLimit = 100`,
`dailyLimit = 200`, balance `1000`, bot `2` authorized. -/
def c5State : VaultState :=
  { platformFeeBps := 200, treasury := 9,
    fundAccounts := fun x => if x = 1 then
        { balance := 1000, dailySpendingLimit := 200,
          perTransactionLimit := 100, todaySpent := 0, lastResetDay := 0,
          authorizedBots := fun y => y == 2 }
      else emptyAccount,
    purchases := [], fundPurchaseIndices := fun _ => [] }

def c5s1 : VaultState := purchaseRun c5State 1 2 3 100 "m" 86400 true true

def c5s2 : VaultState := purchaseRun c5s1 1 2 3 100 "m" 86400 true true

def c5s3 : VaultState := purchaseRun c5s2 1 2 3 100 "m" 86400 true true

/-- `witnessState` after one successful 100.00 purchase (ledger length 1). -/
def c8Base : VaultState := purchaseRun witnessState 1 2 3 100000000 "m" 0 true true

/-! ## Witnesses -/

/-- Witness for C2 at a concrete successful purchase. -/
theorem C2_witness :
    getPurchase (purchaseRun witnessState 1 2 3 100000000 "m" 7 true true) 0 =
      .ok ⟨1, 2, 3, 100000000, 100000000 * witnessState.platformFeeBps / 10000, 7, "m"⟩ ∧
    ((purchaseRun witnessState 1 2 3 100000000 "m" 7 true true).fundAccounts 1).balance +
        (100000000 + 100000000 * witnessState.platformFeeBps / 10000) =
      (witnessState.fundAccounts 1).balance ∧
    computeFee 100000000 witnessState.platformFeeBps =
      100000000 * witnessState.platformFeeBps / 10000 ∧
    computeFee 100000000 200 = 2000000 ∧
    computeFee 33330000 200 = 666600 :=
  C2_amended witnessState (purchaseRun witnessState 1 2 3 100000000 "m" 7 true true)
    1 2 3 100000000 0 "m" 7 true true (by decide) rfl

/-- Witness for C3 with the recipient transfer failing. -/
theorem C3_witness :
    exceptOk (purchaseOnBehalf witnessState 1 2 3 100 "m" 0 false true) = false ∧
    purchaseRun witnessState 1 2 3 100 "m" 0 false true = witnessState ∧
    (exceptOk (purchaseOnBehalf witnessState 1 2 3 100 "m" 0 true true) = true →
      purchaseOnBehalf witnessState 1 2 3 100 "m" 0 false true =
        .error (if false = false then .transferToRecipientFailed else .feeTransferFailed)) :=
  C3_rollback witnessState 1 2 3 100 "m" 0 false true (Or.inl rfl)

/-- Witness for C5 at `L = 100`, `now1` on day 1 and `now2` on day 2. -/
theorem C5_witness :
    exceptOk (purchaseOnBehalf c5State 1 2 3 100 "m" 86400 true true) = true ∧
    exceptOk (purchaseOnBehalf c5s1 1 2 3 100 "m" 86400 true true) = true ∧
    (c5s2.fundAccounts 1).todaySpent = 2 * 100 ∧
    purchaseOnBehalf c5s2 1 2 3 100 "m" 86400 true true = .error .exceedsDailyLimit ∧
    c5s3 = c5s2 ∧
    exceptOk (purchaseOnBehalf c5s2 1 2 3 100 "m" 172800 true true) = true ∧
    ((purchaseRun c5s2 1 2 3 100 "m" 172800 true true).fundAccounts 1).todaySpent = 100 :=
  C5_daily_reset c5State c5s1 c5s2 c5s3 1 2 3 100 "m" 86400 172800
    (by decide) (by decide) (by decide) (by decide) (by decide) (by decide)
    (by decide) (by decide) rfl rfl rfl

/-- Witness for C6 at the boundary `p = 150000000`. -/
theorem C6_witness :
    exceptOk (purchaseOnBehalf witnessState 1 2 3 150000000 "m" 0 true true) = true ∧
    purchaseOnBehalf witnessState 1 2 3 (150000000 + 1) "m" 0 true true =
      .error .exceedsPerTransactionLimit :=
  C6_limit_boundary witnessState 1 2 3 150000000 "m" 0 true true
    (by decide) (by decide) (by decide) (by decide) (by decide) (by decide)

/-- Witness for C7: a deposit on fund `1` changes no authorization bit. -/
theorem C7_witness :
    isBotAuthorized (runOp witnessState 1 (.deposit 5 true)) 2 2 =
      isBotAuthorized witnessState 2 2 ∧
    isBotAuthorized (runOp witnessState 1 (.deposit 5 true)) 1 2 =
      isBotAuthorized witnessState 1 2 := by
  obtain ⟨h1, h2⟩ := C7_isolation witnessState 1 2 2 (.deposit 5 true) (by decide)
  exact ⟨h1, h2 rfl⟩

/-- Witness for C8 on a state with one existing purchase. -/
theorem C8_witness :
    getTotalPurchases c8Base ≤
      getTotalPurchases (runOp c8Base 1 (.purchase 2 3 50000000 "n" 0 true true)) ∧
    getPurchase (runOp c8Base 1 (.purchase 2 3 50000000 "n" 0 true true)) 0 =
      getPurchase c8Base 0 ∧
    (getPurchase c8Base 0 = .error .invalidPurchaseId ↔ getTotalPurchases c8Base ≤ 0) ∧
    (1 = getTotalPurchases c8Base ∧
      (purchaseRun c8Base 1 2 3 50000000 "n" 0 true true).purchases = c8Base.purchases ++
        [⟨1, 2, 3, 50000000, computeFee 50000000 c8Base.platformFeeBps, 0, "n"⟩] ∧
      getTotalPurchases (purchaseRun c8Base 1 2 3 50000000 "n" 0 true true) =
        getTotalPurchases c8Base + 1) := by
  obtain ⟨h1, h2, h3, h4⟩ :=
    C8_ledger_append_only c8Base 1 (.purchase 2 3 50000000 "n" 0 true true) 0
  exact ⟨h1, h2 (by decide), h3,
    h4 2 3 50000000 "n" 0 true true (purchaseRun c8Base 1 2 3 50000000 "n" 0 true true) 1 rfl⟩

/-- Witness for C9: recipient `3` versus the bot itself as recipient. -/
theorem C9_witness :
    exceptOk (purchaseOnBehalf witnessState 1 2 3 100 "m" 0 true true) =
      exceptOk (purchaseOnBehalf witnessState 1 2 2 100 "m" 0 true true) ∧
    errOf (purchaseOnBehalf witnessState 1 2 3 100 "m" 0 true true) =
      errOf (purchaseOnBehalf witnessState 1 2 2 100 "m" 0 true true) ∧
    getFundAccount (purchaseRun witnessState 1 2 3 100 "m" 0 true true) 1 =
      getFundAccount (purchaseRun witnessState 1 2 2 100 "m" 0 true true) 1 ∧
    getTotalPurchases (purchaseRun witnessState 1 2 3 100 "m" 0 true true) =
      getTotalPurchases (purchaseRun witnessState 1 2 2 100 "m" 0 true true) :=
  C9_recipient_unconstrained witnessState 1 2 3 2 100 "m" 0 true true
    (by decide) (by decide)

/-- Witness for C10: two operations on fund `1`, queried at fund `2`. -/
theorem C10_witness :
    getFundAccount (runOps (initialState 9) [(1, .deposit 5 true), (1, .authorizeBot 7)]) 2 =
      ⟨0, 0, 0, 0, 0⟩ ∧
    isBotAuthorized (runOps (initialState 9) [(1, .deposit 5 true), (1, .authorizeBot 7)]) 2 7 =
      false ∧
    getFundPurchases (runOps (initialState 9) [(1, .deposit 5 true), (1, .authorizeBot 7)]) 2 =
      [] :=
  C10_unknown_fund 9 [(1, .deposit 5 true), (1, .authorizeBot 7)] 2 7 (by decide)

end AgentVault
